import Mathlib

/-!
# Verification of the sitetrace-backend ingestion pipeline

A shallow embedding of the core ingestion-to-change-event pipeline of the
`sitetrace-backend` repository, together with proofs of the behavioural
properties stated in its specification.

Embedding conventions:
* Python floats are modelled as rationals (`ℚ`); the real-valued cosine
  similarity (which involves `math.sqrt`) is modelled in `ℝ`.
* Python dicts with a fixed key set are modelled as structures; `dict.get`
  with a default is modelled by `Option` fields plus `Option.getD`.
* External capabilities (AI classifier responses, embedding generation,
  the database) are modelled as explicit inputs / explicit state.
* Exceptions are modelled with `Except`; a write that can fail carries an
  explicit fault flag so that failure scenarios can be stated.
-/

namespace SiteTrace

/-- `app/models/change_event.py`, `ChangeEventProposal`: the unit of output of
every analysis phase. -/
structure ChangeEventProposal where
  is_change_event : Bool
  confidence : ℚ
  description : String := ""
  area : Option String := none
  material_from : Option String := none
  material_to : Option String := none
  requester_name : Option String := none
  urgency : String := "normal"
deriving DecidableEq

/-- The metadata dict paired with each proposal (`AnalysisMetadata` in the
spec): a Python dict with a fixed key set, absent keys modelled as `none`. -/
structure AnalysisMetadata where
  prompt_version : Option String := none
  model_used : Option String := none
  tokens_used : ℕ := 0
  processing_time_ms : ℕ := 0
  skipped : Option Bool := none
  reason : Option String := none
  error : Option String := none
  image_type : Option String := none
deriving DecidableEq

/-- Python `str.split()` with no separator: split on whitespace runs and drop
empty pieces. Modelled by structural recursion on the character list (the
library's `String.split` is defined by well-founded recursion on byte
positions, which the kernel cannot evaluate). `acc` holds the current token's
characters in reverse. -/
def splitWs : List Char → List Char → List String
  | [], acc => if acc.isEmpty then [] else [String.mk acc.reverse]
  | c :: cs, acc =>
    if c.isWhitespace then
      if acc.isEmpty then splitWs cs []
      else String.mk acc.reverse :: splitWs cs []
    else splitWs cs (c :: acc)

/-- `app/agents/orchestrator.py` line 353:
`desc_tokens = set(proposal.description.lower().split())` — the set of
lowercase whitespace-delimited tokens of a description (lowercasing modelled
per character). -/
def tokenSet (s : String) : Finset String :=
  (splitWs (s.data.map Char.toLower) []).toFinset

/-- `app/agents/orchestrator.py` lines 359-361: Jaccard overlap
`len(a & b) / max(len(a | b), 1)`. -/
def overlapScore (a b : Finset String) : ℚ :=
  ((a ∩ b).card : ℚ) / (max (a ∪ b).card 1 : ℚ)

/-- The inner loop of `_deduplicate_proposals` (lines 355-368): a proposal is
a duplicate iff some previously accepted token set is nonempty, the new token
set is nonempty, and the overlap reaches the threshold (empty sets are
skipped by the `continue` guard on line 357). -/
def isDuplicateAgainst (seen : List (Finset String)) (tks : Finset String)
    (threshold : ℚ) : Bool :=
  seen.any fun st =>
    decide tks.Nonempty && decide st.Nonempty &&
      decide (threshold ≤ overlapScore tks st)

/-- The main loop of `_deduplicate_proposals` (lines 349-372): greedy single
pass in arrival order; an accepted proposal's token set is appended to
`seen_descriptions`. -/
def dedupeGo (threshold : ℚ) :
    List (ChangeEventProposal × AnalysisMetadata) → List (Finset String) →
    List (ChangeEventProposal × AnalysisMetadata)
  | [], _ => []
  | pm :: rest, seen =>
    if isDuplicateAgainst seen (tokenSet pm.1.description) threshold then
      dedupeGo threshold rest seen
    else
      pm :: dedupeGo threshold rest (seen ++ [tokenSet pm.1.description])

/-- `app/agents/orchestrator.py`, `_deduplicate_proposals` (lines 337-379):
the Deduplicator. `similarity_threshold` defaults to `0.92 = 23/25`; lists of
length at most one are returned unchanged (line 346). -/
def deduplicate_proposals (proposals : List (ChangeEventProposal × AnalysisMetadata))
    (similarity_threshold : ℚ := 23 / 25) :
    List (ChangeEventProposal × AnalysisMetadata) :=
  if proposals.length ≤ 1 then proposals
  else dedupeGo similarity_threshold proposals []

/-- A concrete proposal used to instantiate theorems at specific inputs. -/
def witProposal (d : String) : ChangeEventProposal :=
  { is_change_event := true, confidence := 9 / 10, description := d }

/-- An empty metadata dict for concrete instantiations. -/
def witMeta : AnalysisMetadata := {}

/-- `app/config.py` — the pipeline-relevant part of `Settings`;
`confidence_threshold: float = 0.70` (line 43). -/
structure Settings where
  confidence_threshold : ℚ := 7 / 10
deriving DecidableEq

/-- The `{subject, body, attachments[]}` blob of an ingest event; attachments
are ignored by the failure-handling path modelled here. -/
structure RawPayload where
  subject : Option String := none
  body : Option String := none
deriving DecidableEq

/-- A row of the `ingest_events` table, as read by the pipeline. -/
structure IngestEventRow where
  id : String
  project_id : Option String := none
  channel : String := "manual"
  subject : Option String := none
  raw_payload : RawPayload := {}
  processing_status : String := "pending"
  error_message : Option String := none
deriving DecidableEq

/-- A row of the `change_events` table with the columns written by the
pipeline (`app/agents/orchestrator.py` lines 271-290 and
`app/workers/content_processor.py` lines 90-98). -/
structure ChangeEventRow where
  id : ℕ
  project_id : Option String := none
  status : String
  description : String := ""
  area : Option String := none
  material_from : Option String := none
  material_to : Option String := none
  confidence_score : ℚ := 0
  raw_text : Option String := none
  prompt_version : Option String := none
  model_used : Option String := none
  tokens_used : ℕ := 0
  processing_time_ms : ℕ := 0
deriving DecidableEq

/-- A row of the `change_event_sources` join table. -/
structure ChangeEventSourceRow where
  change_event_id : ℕ
  ingest_event_id : String
  relevance_score : ℚ
deriving DecidableEq

/-- The metadata blob recorded with an AI state transition
(`app/agents/orchestrator.py` lines 310-315). -/
structure TransitionMetadata where
  confidence : ℚ
  prompt_version : Option String := none
  channel : String
  urgency : String
deriving DecidableEq

/-- A row of the `state_transitions` audit table. -/
structure StateTransitionRow where
  entity_type : String
  entity_id : ℕ
  from_status : Option String := none
  to_status : String
  actor_type : String
  metadata : TransitionMetadata
deriving DecidableEq

/-- The database tables touched by the pipeline, modelled as append-only
lists of rows. -/
structure DBState where
  ingest_events : List IngestEventRow := []
  change_events : List ChangeEventRow := []
  change_event_sources : List ChangeEventSourceRow := []
  state_transitions : List StateTransitionRow := []
deriving DecidableEq

/-- Fault injection for the three inserts performed for one proposal: `true`
means the corresponding insert raises. -/
structure PersistFaults where
  ce_insert : Bool := false
  source_insert : Bool := false
  transition_insert : Bool := false
deriving DecidableEq

/-- `app/agents/orchestrator.py` lines 265-269: a surviving proposal is
persisted with status `proposed` iff `confidence >= settings.confidence_threshold`,
else `manual_review`. -/
def routeStatus (settings : Settings) (confidence : ℚ) : String :=
  if settings.confidence_threshold ≤ confidence then "proposed" else "manual_review"

/-- One iteration of the persistence loop of `process_ingest_event`
(`app/agents/orchestrator.py` lines 264-319): three separate inserts
(`change_events`, then `change_event_sources`, then `state_transitions`)
with no transaction around them.  The new row id is assigned by the store
(modelled as the next index).  A failing insert raises; the error value
carries the state reached so far, which remains visible. -/
def persistOne (settings : Settings) (ie : IngestEventRow) (text : String)
    (pm : ChangeEventProposal × AnalysisMetadata) (f : PersistFaults)
    (db : DBState) : Except DBState (DBState × ChangeEventRow) :=
  let status := routeStatus settings pm.1.confidence
  if f.ce_insert then .error db else
  let ce : ChangeEventRow := {
    id := db.change_events.length
    project_id := ie.project_id
    status := status
    description := pm.1.description
    area := pm.1.area
    material_from := pm.1.material_from
    material_to := pm.1.material_to
    confidence_score := pm.1.confidence
    raw_text := if text = "" then none else some (text.take 2000)
    prompt_version := pm.2.prompt_version
    model_used := pm.2.model_used
    tokens_used := pm.2.tokens_used
    processing_time_ms := pm.2.processing_time_ms }
  let db1 := { db with change_events := db.change_events ++ [ce] }
  if f.source_insert then .error db1 else
  let db2 := { db1 with change_event_sources := db1.change_event_sources ++
    [{ change_event_id := ce.id, ingest_event_id := ie.id,
       relevance_score := pm.1.confidence }] }
  if f.transition_insert then .error db2 else
  let db3 := { db2 with state_transitions := db2.state_transitions ++
    [{ entity_type := "change_event", entity_id := ce.id,
       from_status := none, to_status := status, actor_type := "ai",
       metadata := { confidence := pm.1.confidence,
                     prompt_version := pm.2.prompt_version,
                     channel := ie.channel, urgency := pm.1.urgency } }] }
  .ok (db3, ce)

/-- The persistence stage of `process_ingest_event` (lines 263-319): iterate
over the deduplicated batch.  The loop body has no `try`/`except`, so the
first failing insert aborts the loop and the exception propagates; the
proposals after it are not processed. -/
def persistLoop (settings : Settings) (ie : IngestEventRow) (text : String) :
    List ((ChangeEventProposal × AnalysisMetadata) × PersistFaults) → DBState →
    List ChangeEventRow → Except (DBState × List ChangeEventRow) (DBState × List ChangeEventRow)
  | [], db, created => .ok (db, created)
  | (pm, f) :: rest, db, created =>
    match persistOne settings ie text pm f db with
    | .error dbE => .error (dbE, created)
    | .ok (db1, ce) => persistLoop settings ie text rest db1 (created ++ [ce])

/-- Python rendering of an optional string in an f-string: a present value
renders as itself, a null column renders as `None` (Python's `dict.get`
returns the stored `None` when the key is present, so the default is not
used). -/
def pyOptStr (s : Option String) : String := s.getD "None"

/-- Rendering of `str(raw_payload)`.  The exact Python dict syntax is
immaterial to every claim (only that the payload is what is being rendered);
a fixed faithful shape is used. -/
def payloadStr (p : RawPayload) : String :=
  "\x7bsubject: " ++ pyOptStr p.subject ++ ", body: " ++ pyOptStr p.body ++ "\x7d"

/-- The `manual_review` change event synthesized from a permanently failed
ingest event (`app/workers/content_processor.py` lines 90-98). -/
def synthManualReviewCE (ie : IngestEventRow) (pid : String) (nextId : ℕ) : ChangeEventRow :=
  { id := nextId
    project_id := some pid
    status := "manual_review"
    description := "[Auto] Processing failed for: " ++ pyOptStr ie.subject
    raw_text := some ((payloadStr ie.raw_payload).take 2000)
    confidence_score := 0 }

/-- `app/workers/content_processor.py` lines 65-105, the `except` branch of
`process_content` once `self.request.retries >= self.max_retries`: the
ingest event is marked `failed` with a 500-character error excerpt, then a
`manual_review` change event is inserted **only when the ingest event has a
project assigned** (the `if ie.get("project_id")` guard on line 89). -/
def handlePermanentFailure (ie : IngestEventRow) (err : String) (db : DBState) : DBState :=
  let db1 := { db with ingest_events := db.ingest_events.map fun r =>
    if r.id = ie.id then
      { r with processing_status := "failed", error_message := some (err.take 500) }
    else r }
  match ie.project_id with
  | some pid =>
    { db1 with change_events :=
        db1.change_events ++ [synthManualReviewCE ie pid db1.change_events.length] }
  | none => db1

/-- A concrete ingest event with a project assigned. -/
def wIE : IngestEventRow :=
  { id := "ie-1", project_id := some "p-1", channel := "manual",
    subject := some "Kitchen floor",
    raw_payload := { subject := some "Kitchen floor", body := some "switch oak to tile" } }

/-- A concrete ingest event with no project assigned. -/
def wIEnoProj : IngestEventRow :=
  { id := "ie-2", project_id := none, channel := "gmail",
    subject := some "Floor change",
    raw_payload := { subject := some "Floor change", body := some "please change the floor" } }

/-- A concrete proposal with a given confidence. -/
def witProposalC (c : ℚ) : ChangeEventProposal :=
  { is_change_event := true, confidence := c,
    description := "switch oak to porcelain tile" }

/-- The change-event row written for `witProposalC (7/10)` into an empty store. -/
def wCE07 : ChangeEventRow :=
  { id := 0, project_id := some "p-1", status := "proposed",
    description := "switch oak to porcelain tile", confidence_score := 7 / 10 }

/-- The change-event row written for `witProposalC (9/10)` into an empty store. -/
def wCE09 : ChangeEventRow :=
  { id := 0, project_id := some "p-1", status := "proposed",
    description := "switch oak to porcelain tile", confidence_score := 9 / 10 }

/-- The full database state after successfully persisting `witProposalC (7/10)`
into an empty store. -/
def wDB07 : DBState :=
  { change_events := [wCE07]
    change_event_sources :=
      [{ change_event_id := 0, ingest_event_id := "ie-1", relevance_score := 7 / 10 }]
    state_transitions :=
      [{ entity_type := "change_event", entity_id := 0, from_status := none,
         to_status := "proposed", actor_type := "ai",
         metadata := { confidence := 7 / 10, prompt_version := none,
                       channel := "manual", urgency := "normal" } }] }

/-- One entry of the `changes` array of a decoded classifier response;
Python's `change.get(key, default)` on possibly-missing keys is modelled by
`Option` fields. -/
structure ChangeEntry where
  is_change_event : Option Bool := none
  confidence : Option ℚ := none
  description : Option String := none
  area : Option String := none
  material_from : Option String := none
  material_to : Option String := none
  requester_name : Option String := none
  urgency : Option String := none
deriving DecidableEq

/-- The decoded classifier response: a JSON parse failure, or the `changes`
array (`parsed.get("changes", [])`). -/
inductive ClassifierResponse where
  | parseFailure
  | ok (changes : List ChangeEntry)
deriving DecidableEq

/-- The proposal built from an accepted entry (`ChangeEventProposal(...)`
constructor call in both phases): `is_change_event := True`, defaults `0.5`
for confidence, `""` for description and `"normal"` for urgency. -/
def entryToProposal (change : ChangeEntry) : ChangeEventProposal :=
  { is_change_event := true
    confidence := change.confidence.getD (1 / 2)
    description := change.description.getD ""
    area := change.area
    material_from := change.material_from
    material_to := change.material_to
    requester_name := change.requester_name
    urgency := change.urgency.getD "normal" }

/-- The proposal-building loop shared verbatim by `detect_changes_in_text`
(`app/agents/text_detector.py` lines 81-95) and `extract_changes_from_image`
(`app/agents/visual_change.py` lines 124-138): entries whose
`is_change_event` field is absent or `false` are skipped
(`if not change.get("is_change_event", False): continue`). -/
def buildProposals : List ChangeEntry → List ChangeEventProposal
  | [] => []
  | change :: rest =>
    if change.is_change_event.getD false then
      entryToProposal change :: buildProposals rest
    else buildProposals rest

/-- `app/agents/text_detector.py`, `detect_changes_in_text`, modelled from
the decoded model response onward (the model call itself is an external
capability; token and timing counts are inputs): a parse failure yields no
proposals plus error metadata, otherwise the shared loop filters and builds
the proposals. -/
def detect_changes_in_text (resp : ClassifierResponse)
    (tokens_used processing_time_ms : ℕ) (prompt_version : String := "v1") :
    List ChangeEventProposal × AnalysisMetadata :=
  match resp with
  | .parseFailure =>
    ([], { prompt_version := some ("text_detection:" ++ prompt_version)
           model_used := some "claude-sonnet-4-5-20250514"
           tokens_used := tokens_used, processing_time_ms := processing_time_ms
           error := some "JSON parse failed" })
  | .ok changes =>
    (buildProposals changes,
     { prompt_version := some ("text_detection:" ++ prompt_version)
       model_used := some "claude-sonnet-4-5-20250514"
       tokens_used := tokens_used, processing_time_ms := processing_time_ms })

/-- Result of the image-phase extraction together with the number of calls
made to the external extraction capability. -/
structure VisualResult where
  proposals : List ChangeEventProposal
  metadata : AnalysisMetadata
  extraction_calls : ℕ
deriving DecidableEq

/-- `app/agents/visual_change.py`, `extract_changes_from_image` (lines
22-153): image types `other` and `document` short-circuit before any model
call (lines 47-57) with `skipped=True` and `reason="image_type=<t>"` and
zero tokens; otherwise exactly one extraction call is made and its decoded
response is filtered by the shared loop. -/
def extract_changes_from_image (image_type : String) (resp : ClassifierResponse)
    (tokens_used processing_time_ms : ℕ) (prompt_version : String := "v1") :
    VisualResult :=
  if image_type = "other" ∨ image_type = "document" then
    { proposals := []
      metadata := { prompt_version := some ("visual_change:" ++ prompt_version)
                    model_used := some "claude-sonnet-4-5-20250514"
                    tokens_used := 0, processing_time_ms := 0
                    skipped := some true
                    reason := some ("image_type=" ++ image_type) }
      extraction_calls := 0 }
  else
    match resp with
    | .parseFailure =>
      { proposals := []
        metadata := { prompt_version := some ("visual_change:" ++ prompt_version)
                      model_used := some "claude-sonnet-4-5-20250514"
                      tokens_used := tokens_used, processing_time_ms := processing_time_ms
                      error := some "JSON parse failed" }
        extraction_calls := 1 }
    | .ok changes =>
      { proposals := buildProposals changes
        metadata := { prompt_version := some ("visual_change:" ++ prompt_version)
                      model_used := some "claude-sonnet-4-5-20250514"
                      tokens_used := tokens_used, processing_time_ms := processing_time_ms
                      image_type := some image_type }
        extraction_calls := 1 }

/-- A `changes` entry that is a change event, for concrete instantiations. -/
def wEntryTrue : ChangeEntry :=
  { is_change_event := some true, confidence := some (95 / 100),
    description := some "switch kitchen floor from oak to porcelain tile" }

/-- A `changes` entry that is not a change event. -/
def wEntryFalse : ChangeEntry :=
  { is_change_event := some false, description := some "general greeting" }

/-- A `changes` entry with the `is_change_event` key absent. -/
def wEntryAbsent : ChangeEntry :=
  { description := some "schedule note" }

/-- `DUPLICATE_THRESHOLD = 0.92` (`app/agents/embeddings.py` line 18). -/
noncomputable def DUPLICATE_THRESHOLD : ℝ := 23 / 25

/-- `POSSIBLE_DUP_THRESHOLD = 0.80` (`app/agents/embeddings.py` line 19). -/
noncomputable def POSSIBLE_DUP_THRESHOLD : ℝ := 4 / 5

/-- `app/agents/embeddings.py` lines 54-66, `cosine_similarity`: `0.0` for an
empty vector or a length mismatch, `0.0` when either norm is zero, else
`dot / (norm_a * norm_b)`.  Components are floats (modelled as `ℚ`); the
value lives in `ℝ` because of `math.sqrt`. -/
noncomputable def cosine_similarity (vec_a vec_b : List ℚ) : ℝ :=
  if vec_a = [] ∨ vec_b = [] ∨ vec_a.length ≠ vec_b.length then 0
  else if Real.sqrt (((vec_a.map fun x => x * x).sum : ℚ) : ℝ) = 0 ∨
      Real.sqrt (((vec_b.map fun x => x * x).sum : ℚ) : ℝ) = 0 then 0
  else ((((vec_a.zip vec_b).map fun p => p.1 * p.2).sum : ℚ) : ℝ) /
    (Real.sqrt (((vec_a.map fun x => x * x).sum : ℚ) : ℝ) *
     Real.sqrt (((vec_b.map fun x => x * x).sum : ℚ) : ℝ))

/-- A stored change event of the same project whose `embedding` column is
non-null (the query filters `.not_.is_("embedding", "null")`); the empty
list models an empty stored vector, skipped by the loop guard
(`if not ce.get("embedding"): continue`). -/
structure StoredChangeEvent where
  id : ℕ
  description : String := ""
  embedding : List ℚ := []
  status : String := "proposed"

/-- One entry of the result list of `find_similar_change_events` (lines
110-117): the similarity is stored rounded to four decimal places, while the
two flags are computed from the unrounded similarity. -/
structure SimilarMatch where
  change_event_id : ℕ
  similarity : ℚ
  status : String
  description : String
  is_duplicate : Bool
  is_possible_duplicate : Bool

/-- Python `round(x, 4)`, landing in `ℚ` (the rounded float is exactly a
four-decimal value at the magnitudes involved).  Python rounds ties to even
while `round` rounds ties up; the two differ only at exact odd multiples of
`0.00005`, which none of the stated properties involves. -/
noncomputable def round4 (x : ℝ) : ℚ := (round (x * 10000) : ℤ) / 10000

/-- The dict appended for a stored event that passed the `>= 0.80` filter
(lines 110-117). -/
noncomputable def buildMatch (new_embedding : List ℚ) (ce : StoredChangeEvent) :
    SimilarMatch :=
  { change_event_id := ce.id
    similarity := round4 (cosine_similarity new_embedding ce.embedding)
    status := ce.status
    description := ce.description.take 100
    is_duplicate :=
      decide (DUPLICATE_THRESHOLD ≤ cosine_similarity new_embedding ce.embedding)
    is_possible_duplicate :=
      decide (POSSIBLE_DUP_THRESHOLD ≤ cosine_similarity new_embedding ce.embedding ∧
        cosine_similarity new_embedding ce.embedding < DUPLICATE_THRESHOLD) }

/-- The comparison loop of `find_similar_change_events` (lines 104-117):
skip stored events with an empty embedding, keep those whose similarity
reaches `POSSIBLE_DUP_THRESHOLD`. -/
noncomputable def buildMatches (new_embedding : List ℚ) :
    List StoredChangeEvent → List SimilarMatch
  | [] => []
  | ce :: rest =>
    if ce.embedding = [] then buildMatches new_embedding rest
    else if POSSIBLE_DUP_THRESHOLD ≤ cosine_similarity new_embedding ce.embedding then
      buildMatch new_embedding ce :: buildMatches new_embedding rest
    else buildMatches new_embedding rest

/-- Stable insertion into a list sorted descending by `similarity`: an
element being inserted comes from earlier in the original list, so on equal
keys it goes first. -/
def insertDesc (m : SimilarMatch) : List SimilarMatch → List SimilarMatch
  | [] => [m]
  | x :: xs => if x.similarity ≤ m.similarity then m :: x :: xs else x :: insertDesc m xs

/-- `results.sort(key=lambda x: x["similarity"], reverse=True)` (line 119):
a stable descending sort by the rounded similarity. -/
def sortDesc : List SimilarMatch → List SimilarMatch
  | [] => []
  | x :: xs => insertDesc x (sortDesc xs)

/-- `app/agents/embeddings.py`, `find_similar_change_events` (lines 69-120),
modelled from the generated embedding onward: `generate_embedding` is an
external capability whose result is the input `new_embedding`, with the
empty vector meaning "unavailable" (line 89 returns `[]` early). -/
noncomputable def find_similar_change_events (new_embedding : List ℚ)
    (stored : List StoredChangeEvent) : List SimilarMatch :=
  if new_embedding = [] then []
  else sortDesc (buildMatches new_embedding stored)

/-- The result dict of `check_and_handle_duplicates`. -/
structure ResolveResult where
  action : String
  existing_id : Option ℕ := none
  similarity : Option ℚ := none

/-- `app/agents/embeddings.py`, `check_and_handle_duplicates` (lines
123-178): decide from the first-ranked match; `merge` inserts a new
`change_event_sources` link on the existing event and creates no new change
event, `flag` and `create` write nothing. -/
noncomputable def check_and_handle_duplicates (new_embedding : List ℚ)
    (stored : List StoredChangeEvent) (ingest_event_id : String) (db : DBState) :
    ResolveResult × DBState :=
  match find_similar_change_events new_embedding stored with
  | [] => ({ action := "create" }, db)
  | best :: _ =>
    if best.is_duplicate then
      ({ action := "merge", existing_id := some best.change_event_id,
         similarity := some best.similarity },
       { db with change_event_sources := db.change_event_sources ++
          [{ change_event_id := best.change_event_id,
             ingest_event_id := ingest_event_id,
             relevance_score := best.similarity }] })
    else if best.is_possible_duplicate then
      ({ action := "flag", existing_id := some best.change_event_id,
         similarity := some best.similarity }, db)
    else ({ action := "create" }, db)

/-- A stored event identical in direction to the candidate `[1, 0]`
(cosine `1`, merge zone). -/
def wStoredSame : StoredChangeEvent :=
  { id := 3, description := "replace oak floor", embedding := [1, 0] }

/-- A stored event at cosine exactly `0.8` against `[1, 0]` (flag zone). -/
def wStoredFlag : StoredChangeEvent :=
  { id := 5, description := "new ceiling lamp", embedding := [4, 3] }

/-- A stored event orthogonal to `[1, 0]` (cosine `0`, excluded). -/
def wStoredLow : StoredChangeEvent :=
  { id := 8, description := "paint the fence", embedding := [0, 1] }

theorem dedupeGo_idem (th : ℚ) (xs : List (ChangeEventProposal × AnalysisMetadata)) :
    ∀ seen, dedupeGo th (dedupeGo th xs seen) seen = dedupeGo th xs seen := by
  induction xs with
  | nil => intro seen; rfl
  | cons pm rest ih =>
    intro seen
    by_cases h : isDuplicateAgainst seen (tokenSet pm.1.description) th = true
    · simp only [dedupeGo, h, if_true, ih]
    · simp only [dedupeGo, h, if_false, Bool.false_eq_true]
      rw [ih]

/-- **C4** — The Deduplicator is idempotent: for every batch `X` of
`(proposal, metadata)` pairs and the fixed threshold `0.92`,
`dedupe(dedupe(X)) = dedupe(X)`. -/
theorem dedupe_idempotent (X : List (ChangeEventProposal × AnalysisMetadata)) :
    deduplicate_proposals (deduplicate_proposals X (23 / 25)) (23 / 25) =
      deduplicate_proposals X (23 / 25) := by
  unfold deduplicate_proposals
  by_cases h1 : X.length ≤ 1
  · simp [h1]
  · rw [if_neg h1]
    by_cases h2 : (dedupeGo (23 / 25) X []).length ≤ 1
    · rw [if_pos h2]
    · rw [if_neg h2, dedupeGo_idem]

theorem dedupeGo_sublist (th : ℚ) (xs : List (ChangeEventProposal × AnalysisMetadata)) :
    ∀ seen, (dedupeGo th xs seen).Sublist xs := by
  induction xs with
  | nil => intro seen; exact List.Sublist.refl []
  | cons pm rest ih =>
    intro seen
    by_cases h : isDuplicateAgainst seen (tokenSet pm.1.description) th = true
    · simp only [dedupeGo, h, if_true]
      exact (ih seen).cons pm
    · simp only [dedupeGo, h, if_false, Bool.false_eq_true]
      exact (ih _).cons₂ pm

theorem deduplicate_proposals_sublist (X : List (ChangeEventProposal × AnalysisMetadata))
    (th : ℚ) : (deduplicate_proposals X th).Sublist X := by
  unfold deduplicate_proposals
  by_cases h : X.length ≤ 1
  · rw [if_pos h]
  · rw [if_neg h]; exact dedupeGo_sublist th X []

theorem isDuplicateAgainst_iff (seen : List (Finset String)) (tks : Finset String) (th : ℚ) :
    isDuplicateAgainst seen tks th = true ↔
      ∃ st ∈ seen, tks.Nonempty ∧ st.Nonempty ∧ th ≤ overlapScore tks st := by
  simp [isDuplicateAgainst, List.any_eq_true, and_assoc]

/-- **C5** — The Deduplicator processes proposals in arrival order and keeps
survivors in input order (the output is a sublist of the input, first-seen
wins); at every step a proposal is discarded iff the Jaccard overlap of its
lowercase whitespace-token set against some previously accepted token set is
`≥ 0.92`, with both sets nonempty; the boundary is inclusive (`0.92` merges,
any value below — in particular `0.91999` — does not); a proposal with an
empty token set is always accepted and never matches anything. -/
theorem dedupe_order_boundary_empty :
    (∀ X th, (deduplicate_proposals X th).Sublist X) ∧
    (∀ th pm rest seen, dedupeGo th (pm :: rest) seen =
        if isDuplicateAgainst seen (tokenSet pm.1.description) th then
          dedupeGo th rest seen
        else pm :: dedupeGo th rest (seen ++ [tokenSet pm.1.description])) ∧
    (∀ seen tks th, isDuplicateAgainst seen tks th = true ↔
        ∃ st ∈ seen, tks.Nonempty ∧ st.Nonempty ∧ th ≤ overlapScore tks st) ∧
    (∀ p q md1 md2, (tokenSet p.description).Nonempty →
        (tokenSet q.description).Nonempty →
        23 / 25 ≤ overlapScore (tokenSet q.description) (tokenSet p.description) →
        deduplicate_proposals [(p, md1), (q, md2)] (23 / 25) = [(p, md1)]) ∧
    (∀ p q md1 md2,
        overlapScore (tokenSet q.description) (tokenSet p.description) < 23 / 25 →
        deduplicate_proposals [(p, md1), (q, md2)] (23 / 25) = [(p, md1), (q, md2)]) ∧
    ((91999 / 100000 : ℚ) < 23 / 25) ∧
    (∀ th pm rest seen, tokenSet pm.1.description = ∅ →
        dedupeGo th (pm :: rest) seen =
          pm :: dedupeGo th rest (seen ++ [tokenSet pm.1.description])) ∧
    (∀ s1 s2 tks th, isDuplicateAgainst (s1 ++ ∅ :: s2) tks th =
        isDuplicateAgainst (s1 ++ s2) tks th) := by
  refine ⟨?_, ?_, ?_, ?_, ?_, by norm_num, ?_, ?_⟩
  · exact deduplicate_proposals_sublist
  · intro th pm rest seen
    rfl
  · exact isDuplicateAgainst_iff
  · intro p q md1 md2 hp hq hov
    have h2 : ¬ ([(p, md1), (q, md2)].length ≤ 1) := by simp
    rw [deduplicate_proposals, if_neg h2]
    rw [dedupeGo]
    rw [if_neg (by simp [isDuplicateAgainst])]
    rw [dedupeGo]
    rw [if_pos (by simp [isDuplicateAgainst, hp, hq, hov])]
    rfl
  · intro p q md1 md2 hov
    have h2 : ¬ ([(p, md1), (q, md2)].length ≤ 1) := by simp
    rw [deduplicate_proposals, if_neg h2]
    rw [dedupeGo]
    rw [if_neg (by simp [isDuplicateAgainst])]
    rw [dedupeGo]
    rw [if_neg (by simp [isDuplicateAgainst, not_le.mpr hov])]
    rfl
  · intro th pm rest seen h
    rw [dedupeGo, if_neg (by simp [isDuplicateAgainst, h])]
  · intro s1 s2 tks th
    simp [isDuplicateAgainst, List.any_append, List.any_cons]

theorem witOverlap_boundary :
    23 / 25 ≤ overlapScore
      (tokenSet "a b c d e f g h i j k l m n o p q r s t u v w y")
      (tokenSet "a b c d e f g h i j k l m n o p q r s t u v w x") := by
  have h1 : ((tokenSet "a b c d e f g h i j k l m n o p q r s t u v w y") ∩
      (tokenSet "a b c d e f g h i j k l m n o p q r s t u v w x")).card = 23 := by decide
  have h2 : ((tokenSet "a b c d e f g h i j k l m n o p q r s t u v w y") ∪
      (tokenSet "a b c d e f g h i j k l m n o p q r s t u v w x")).card = 25 := by decide
  rw [overlapScore, h1, h2]
  norm_num

theorem witOverlap_low :
    overlapScore (tokenSet "porcelain tile") (tokenSet "oak floor") < 23 / 25 := by
  have h1 : ((tokenSet "porcelain tile") ∩ (tokenSet "oak floor")).card = 0 := by decide
  have h2 : ((tokenSet "porcelain tile") ∪ (tokenSet "oak floor")).card = 4 := by decide
  rw [overlapScore, h1, h2]
  norm_num

/-- Witness for C5: two 24-token descriptions sharing 23 tokens have Jaccard
overlap exactly `23/25 = 0.92` and merge; two disjoint descriptions (overlap
`0`) both survive; an empty description is accepted. -/
theorem dedupe_order_boundary_empty_witness :
    deduplicate_proposals
        [(witProposal "a b c d e f g h i j k l m n o p q r s t u v w x", witMeta),
         (witProposal "a b c d e f g h i j k l m n o p q r s t u v w y", witMeta)] (23 / 25) =
      [(witProposal "a b c d e f g h i j k l m n o p q r s t u v w x", witMeta)] ∧
    deduplicate_proposals
        [(witProposal "oak floor", witMeta), (witProposal "porcelain tile", witMeta)] (23 / 25) =
      [(witProposal "oak floor", witMeta), (witProposal "porcelain tile", witMeta)] ∧
    dedupeGo (23 / 25) [(witProposal "", witMeta)] [] = [(witProposal "", witMeta)] :=
  ⟨dedupe_order_boundary_empty.2.2.2.1 _ _ _ _ (by decide) (by decide) witOverlap_boundary,
   dedupe_order_boundary_empty.2.2.2.2.1 _ _ _ _ witOverlap_low,
   (dedupe_order_boundary_empty.2.2.2.2.2.2.1 (23 / 25) _ [] [] (by decide)).trans rfl⟩

theorem persistOne_eval07 :
    persistOne {} wIE "" (witProposalC (7 / 10), witMeta) {} {} = .ok (wDB07, wCE07) := by
  rw [persistOne, routeStatus]
  rw [if_pos (show ({} : Settings).confidence_threshold ≤
    (witProposalC (7 / 10), witMeta).1.confidence from le_refl _)]
  rfl

theorem persistOne_eval09fail :
    persistOne {} wIE "" (witProposalC (9 / 10), witMeta) { source_insert := true } {} =
      .error { change_events := [wCE09] } := by
  rw [persistOne, routeStatus]
  rw [if_pos (show ({} : Settings).confidence_threshold ≤
    (witProposalC (9 / 10), witMeta).1.confidence by norm_num [witProposalC])]
  rfl

/-- **C7** — For every surviving proposal that is persisted, the stored
status is `proposed` iff `confidence ≥ confidence_threshold` (configurable,
default `0.70`), else `manual_review`; in particular `0.70` routes to
`proposed` and `0.69` to `manual_review`. -/
theorem confidence_routing :
    (∀ settings ie text pm f db db1 ce,
        persistOne settings ie text pm f db = .ok (db1, ce) →
        ce.status = routeStatus settings pm.1.confidence) ∧
    (∀ settings c,
        (routeStatus settings c = "proposed" ↔ settings.confidence_threshold ≤ c) ∧
        (routeStatus settings c = "manual_review" ↔ c < settings.confidence_threshold)) ∧
    ({} : Settings).confidence_threshold = 7 / 10 ∧
    routeStatus {} (7 / 10) = "proposed" ∧
    routeStatus {} (69 / 100) = "manual_review" := by
  refine ⟨?_, ?_, rfl, ?_, ?_⟩
  · intro settings ie text pm f db db1 ce h
    rw [persistOne] at h
    by_cases h1 : f.ce_insert = true
    · simp [h1] at h
    · simp only [h1, Bool.false_eq_true, if_false] at h
      by_cases h2 : f.source_insert = true
      · simp [h2] at h
      · simp only [h2, Bool.false_eq_true, if_false] at h
        by_cases h3 : f.transition_insert = true
        · simp [h3] at h
        · simp only [h3, Bool.false_eq_true, if_false, Except.ok.injEq, Prod.mk.injEq] at h
          rw [← h.2]
  · intro settings c
    by_cases h : settings.confidence_threshold ≤ c
    · refine ⟨by simp [routeStatus, h], ?_⟩
      rw [routeStatus, if_pos h]
      simp [not_lt.mpr h]
    · refine ⟨by simp [routeStatus, h], ?_⟩
      rw [routeStatus, if_neg h]
      simp [lt_of_not_le h]
  · rw [routeStatus, if_pos (le_refl ((7 : ℚ) / 10))]
  · rw [routeStatus, if_neg (by norm_num)]

/-- Witness for C7: `0.71` routes to `proposed`, `0.5` to `manual_review`,
and the actually persisted row for confidence `0.70` carries the routed
status. -/
theorem confidence_routing_witness :
    routeStatus {} (71 / 100) = "proposed" ∧
    routeStatus {} (1 / 2) = "manual_review" ∧
    wCE07.status = routeStatus {} ((witProposalC (7 / 10), witMeta).1.confidence) :=
  ⟨(confidence_routing.2.1 {} (71 / 100)).1.mpr (by norm_num),
   ((confidence_routing.2.1 {} (1 / 2)).2).mpr (by norm_num),
   confidence_routing.1 {} wIE "" (witProposalC (7 / 10), witMeta) {} {} wDB07 wCE07
     persistOne_eval07⟩

/-- **C2 amended** — the ChangeEvent row, its source link (with
`relevance_score = confidence`) and its StateTransition (`none → status`,
`actor_type = "ai"`, metadata carrying confidence, prompt version, channel
and urgency) are three *separate sequential inserts with no transaction*:
on success all three rows are appended, but if a later insert fails the
earlier inserts remain visible — the all-or-nothing property claimed in the
spec does not hold. -/
theorem persist_unit_of_work :
    (∀ settings ie text pm f db db1 ce,
        persistOne settings ie text pm f db = .ok (db1, ce) →
        db1.change_events = db.change_events ++ [ce] ∧
        db1.change_event_sources = db.change_event_sources ++
          [{ change_event_id := ce.id, ingest_event_id := ie.id,
             relevance_score := pm.1.confidence }] ∧
        db1.state_transitions = db.state_transitions ++
          [{ entity_type := "change_event", entity_id := ce.id, from_status := none,
             to_status := ce.status, actor_type := "ai",
             metadata := { confidence := pm.1.confidence,
                           prompt_version := pm.2.prompt_version,
                           channel := ie.channel, urgency := pm.1.urgency } }] ∧
        db1.ingest_events = db.ingest_events) ∧
    (∀ settings ie text pm f db dbE,
        persistOne settings ie text pm f db = .error dbE →
        (f.ce_insert = true ∧ dbE = db) ∨
        (f.ce_insert = false ∧ f.source_insert = true ∧
          ∃ ce, dbE = { db with change_events := db.change_events ++ [ce] }) ∨
        (f.ce_insert = false ∧ f.source_insert = false ∧ f.transition_insert = true ∧
          ∃ ce src, dbE = { db with
            change_events := db.change_events ++ [ce]
            change_event_sources := db.change_event_sources ++ [src] })) := by
  constructor
  · intro settings ie text pm f db db1 ce h
    rw [persistOne] at h
    by_cases h1 : f.ce_insert = true
    · simp [h1] at h
    · simp only [h1, Bool.false_eq_true, if_false] at h
      by_cases h2 : f.source_insert = true
      · simp [h2] at h
      · simp only [h2, Bool.false_eq_true, if_false] at h
        by_cases h3 : f.transition_insert = true
        · simp [h3] at h
        · simp only [h3, Bool.false_eq_true, if_false, Except.ok.injEq, Prod.mk.injEq] at h
          obtain ⟨hdb, hce⟩ := h
          subst hdb
          rw [← hce]
          exact ⟨rfl, rfl, rfl, rfl⟩
  · intro settings ie text pm f db dbE h
    rw [persistOne] at h
    by_cases h1 : f.ce_insert = true
    · simp only [h1, if_true, Except.error.injEq] at h
      exact Or.inl ⟨h1, h.symm⟩
    · simp only [h1, Bool.false_eq_true, if_false] at h
      by_cases h2 : f.source_insert = true
      · simp only [h2, if_true, Except.error.injEq] at h
        exact Or.inr (Or.inl ⟨by simpa using h1, h2, _, h.symm⟩)
      · simp only [h2, Bool.false_eq_true, if_false] at h
        by_cases h3 : f.transition_insert = true
        · simp only [h3, if_true, Except.error.injEq] at h
          exact Or.inr (Or.inr ⟨by simpa using h1, by simpa using h2, h3, _, _, h.symm⟩)
        · simp [h3] at h

/-- **C2 counterexample** — when the `change_event_sources` insert fails, the
already-inserted ChangeEvent row stays visible while no source link and no
transition record exist: the three writes are not atomic. -/
theorem persist_not_atomic_counterexample :
    persistOne {} wIE "" (witProposalC (9 / 10), witMeta) { source_insert := true } {} =
      .error { change_events := [wCE09] } ∧
    ({ change_events := [wCE09] } : DBState).change_events.length = 1 ∧
    ({ change_events := [wCE09] } : DBState).change_event_sources = [] ∧
    ({ change_events := [wCE09] } : DBState).state_transitions = [] :=
  ⟨persistOne_eval09fail, rfl, rfl, rfl⟩

/-- Witness for the amended C2: the faultless persist of `witProposalC (7/10)`
appends all three rows. -/
theorem persist_unit_of_work_witness :
    wDB07.change_events = ({} : DBState).change_events ++ [wCE07] ∧
    wDB07.change_event_sources = ({} : DBState).change_event_sources ++
      [{ change_event_id := wCE07.id, ingest_event_id := wIE.id,
         relevance_score := (witProposalC (7 / 10), witMeta).1.confidence }] ∧
    wDB07.state_transitions = ({} : DBState).state_transitions ++
      [{ entity_type := "change_event", entity_id := wCE07.id, from_status := none,
         to_status := wCE07.status, actor_type := "ai",
         metadata := { confidence := (witProposalC (7 / 10), witMeta).1.confidence,
                       prompt_version := (witProposalC (7 / 10), witMeta).2.prompt_version,
                       channel := wIE.channel,
                       urgency := (witProposalC (7 / 10), witMeta).1.urgency } }] :=
  have h := persist_unit_of_work.1 {} wIE "" (witProposalC (7 / 10), witMeta) {} {}
    wDB07 wCE07 persistOne_eval07
  ⟨h.1, h.2.1, h.2.2.1⟩

/-- **C3 amended** — the persistence loop has no per-proposal error
isolation: the first failing insert aborts the loop, the exception
propagates, and the remaining proposals of the batch are not persisted in
this attempt. -/
theorem persist_loop_aborts :
    (∀ settings ie text pm f rest db created dbE,
        persistOne settings ie text pm f db = .error dbE →
        persistLoop settings ie text ((pm, f) :: rest) db created = .error (dbE, created)) ∧
    (∀ settings ie text pm f rest db created db1 ce,
        persistOne settings ie text pm f db = .ok (db1, ce) →
        persistLoop settings ie text ((pm, f) :: rest) db created =
          persistLoop settings ie text rest db1 (created ++ [ce])) := by
  constructor
  · intro settings ie text pm f rest db created dbE h
    rw [persistLoop, h]
  · intro settings ie text pm f rest db created db1 ce h
    rw [persistLoop, h]

/-- **C3 counterexample** — a batch of two distinct surviving proposals in
which the first proposal's source-link insert raises: the loop aborts, and
the second proposal is never persisted (its description appears in no
change-event row), contradicting per-proposal error isolation. -/
theorem persist_loop_counterexample :
    persistLoop {} wIE ""
        [((witProposalC (9 / 10), witMeta), { source_insert := true }),
         ((witProposal "add outlet in kitchen", witMeta), {})] {} [] =
      .error ({ change_events := [wCE09] }, []) ∧
    (({ change_events := [wCE09] } : DBState).change_events.map
        (fun ce => ce.description)) = ["switch oak to porcelain tile"] ∧
    (witProposal "add outlet in kitchen").description = "add outlet in kitchen" := by
  refine ⟨?_, rfl, rfl⟩
  rw [persistLoop, persistOne_eval09fail]

/-- Witness for the amended C3: a concrete one-element batch whose single
proposal fails on the source-link insert aborts with the partial state. -/
theorem persist_loop_aborts_witness :
    persistLoop {} wIE ""
        [((witProposalC (9 / 10), witMeta), { source_insert := true })] {} [] =
      .error ({ change_events := [wCE09] }, []) :=
  persist_loop_aborts.1 {} wIE "" (witProposalC (9 / 10), witMeta)
    { source_insert := true } [] {} [] { change_events := [wCE09] } persistOne_eval09fail

/-- **C1 amended** — after retry exhaustion `process_content` marks the
ingest event `failed` with a 500-character error excerpt; exactly one
`manual_review` ChangeEvent referencing the event's subject and raw payload
is synthesized **when the ingest event has a project assigned**; when no
project is assigned, only the failure marking happens and no ChangeEvent is
created. -/
theorem no_loss_on_failure :
    (∀ ie err db, (handlePermanentFailure ie err db).ingest_events =
        db.ingest_events.map (fun r => if r.id = ie.id then
          { r with processing_status := "failed", error_message := some (err.take 500) }
          else r)) ∧
    (∀ ie err db pid, ie.project_id = some pid →
        (handlePermanentFailure ie err db).change_events =
          db.change_events ++ [synthManualReviewCE ie pid db.change_events.length] ∧
        (synthManualReviewCE ie pid db.change_events.length).status = "manual_review" ∧
        (synthManualReviewCE ie pid db.change_events.length).description =
          "[Auto] Processing failed for: " ++ pyOptStr ie.subject ∧
        (synthManualReviewCE ie pid db.change_events.length).raw_text =
          some ((payloadStr ie.raw_payload).take 2000)) ∧
    (∀ ie err db, ie.project_id = none →
        (handlePermanentFailure ie err db).change_events = db.change_events) := by
  refine ⟨?_, ?_, ?_⟩
  · intro ie err db
    rw [handlePermanentFailure]
    cases h : ie.project_id <;> rfl
  · intro ie err db pid h
    rw [handlePermanentFailure, h]
    exact ⟨rfl, rfl, rfl, rfl⟩
  · intro ie err db h
    rw [handlePermanentFailure, h]

/-- **C1 counterexample** — an ingest event with no project assigned: after
permanent failure it is marked `failed`, but zero (not exactly one)
`manual_review` ChangeEvents exist. -/
theorem no_loss_counterexample :
    (handlePermanentFailure wIEnoProj "boom" { ingest_events := [wIEnoProj] }).change_events
        = [] ∧
    ((handlePermanentFailure wIEnoProj "boom"
        { ingest_events := [wIEnoProj] }).ingest_events.map
          (fun r => r.processing_status)) = ["failed"] := by
  exact ⟨rfl, rfl⟩

/-- Witness for the amended C1: with a project assigned, the synthesized
`manual_review` row exists and references the subject. -/
theorem no_loss_on_failure_witness :
    (handlePermanentFailure wIE "boom" { ingest_events := [wIE] }).change_events =
      [synthManualReviewCE wIE "p-1" 0] ∧
    (synthManualReviewCE wIE "p-1" 0).status = "manual_review" ∧
    (synthManualReviewCE wIE "p-1" 0).description =
      "[Auto] Processing failed for: " ++ pyOptStr wIE.subject :=
  have h := no_loss_on_failure.2.1 wIE "boom" { ingest_events := [wIE] } "p-1" rfl
  ⟨h.1, h.2.1, h.2.2.1⟩

/-- **C8** — for every image input classified `other` or `document`,
`extract_changes_from_image` short-circuits: empty proposal list, metadata
with `skipped = true` and a reason naming the classification, and zero calls
to the extraction capability. -/
theorem image_type_short_circuit (image_type : String) (resp : ClassifierResponse)
    (tokens ms : ℕ) (pv : String)
    (h : image_type = "other" ∨ image_type = "document") :
    (extract_changes_from_image image_type resp tokens ms pv).proposals = [] ∧
    (extract_changes_from_image image_type resp tokens ms pv).metadata.skipped = some true ∧
    (extract_changes_from_image image_type resp tokens ms pv).metadata.reason =
      some ("image_type=" ++ image_type) ∧
    (extract_changes_from_image image_type resp tokens ms pv).extraction_calls = 0 := by
  rw [extract_changes_from_image.eq_def, if_pos h]
  exact ⟨rfl, rfl, rfl, rfl⟩

/-- Witness for C8 at both short-circuiting classifications, with a response
that would otherwise produce a proposal. -/
theorem image_type_short_circuit_witness :
    (extract_changes_from_image "other" (.ok [wEntryTrue]) 100 50 "v1").proposals = [] ∧
    (extract_changes_from_image "other" (.ok [wEntryTrue]) 100 50 "v1").extraction_calls = 0 ∧
    (extract_changes_from_image "document" .parseFailure 0 0 "v1").metadata.skipped =
      some true ∧
    (extract_changes_from_image "document" .parseFailure 0 0 "v1").metadata.reason =
      some "image_type=document" :=
  have h1 := image_type_short_circuit "other" (.ok [wEntryTrue]) 100 50 "v1" (Or.inl rfl)
  have h2 := image_type_short_circuit "document" .parseFailure 0 0 "v1" (Or.inr rfl)
  ⟨h1.1, h1.2.2.2, h2.2.1, h2.2.2.1⟩

/-- **C10** — proposals with `is_change_event = false` (or with the field
absent) never reach persistence: the shared loop keeps exactly the entries
whose `is_change_event` is `true`; every proposal returned by the text phase
or the image phase has `is_change_event = true`; and every proposal
surviving deduplication (hence everything the persistence stage sees) was in
the batch the phases produced. -/
theorem proposals_filtered_at_phase_boundary :
    (∀ changes, buildProposals changes =
        (changes.filter fun c => c.is_change_event.getD false).map entryToProposal) ∧
    (∀ changes p, p ∈ buildProposals changes → p.is_change_event = true) ∧
    (∀ resp t ms pv p, p ∈ (detect_changes_in_text resp t ms pv).1 →
        p.is_change_event = true) ∧
    (∀ it resp t ms pv p, p ∈ (extract_changes_from_image it resp t ms pv).proposals →
        p.is_change_event = true) ∧
    (∀ X th pm, pm ∈ deduplicate_proposals X th → pm ∈ X) := by
  have hchar : ∀ changes, buildProposals changes =
      (changes.filter fun c => c.is_change_event.getD false).map entryToProposal := by
    intro changes
    induction changes with
    | nil => rfl
    | cons c rest ih =>
      by_cases h : c.is_change_event.getD false = true
      · simp [buildProposals, List.filter_cons, h, ih]
      · simp [buildProposals, List.filter_cons, h, ih]
  have hmem : ∀ changes p, p ∈ buildProposals changes → p.is_change_event = true := by
    intro changes p hp
    rw [hchar] at hp
    obtain ⟨c, _, rfl⟩ := List.mem_map.mp hp
    rfl
  refine ⟨hchar, hmem, ?_, ?_, ?_⟩
  · intro resp t ms pv p hp
    cases resp with
    | parseFailure => simp [detect_changes_in_text] at hp
    | ok changes => exact hmem changes p hp
  · intro it resp t ms pv p hp
    rw [extract_changes_from_image.eq_def] at hp
    by_cases h : it = "other" ∨ it = "document"
    · rw [if_pos h] at hp
      simp at hp
    · rw [if_neg h] at hp
      cases resp with
      | parseFailure => simp at hp
      | ok changes => exact hmem changes p hp
  · intro X th pm hpm
    exact (deduplicate_proposals_sublist X th).mem hpm

/-- Witness for C10: a mixed response (`false` entry, `true` entry, absent
field) yields exactly the proposal built from the `true` entry, and that
proposal carries `is_change_event = true`; a surviving proposal was in the
input batch. -/
theorem proposals_filtered_witness :
    (entryToProposal wEntryTrue).is_change_event = true ∧
    (witProposal "add a window", witMeta) ∈ [(witProposal "add a window", witMeta)] :=
  ⟨proposals_filtered_at_phase_boundary.2.2.1
      (.ok [wEntryFalse, wEntryTrue, wEntryAbsent]) 100 50 "v1"
      (entryToProposal wEntryTrue) (List.mem_singleton.mpr rfl),
   proposals_filtered_at_phase_boundary.2.2.2.2
      [(witProposal "add a window", witMeta)] (23 / 25)
      (witProposal "add a window", witMeta) (List.mem_singleton.mpr rfl)⟩

theorem sumsq_nonneg (v : List ℚ) : 0 ≤ (v.map fun x => x * x).sum := by
  apply List.sum_nonneg
  intro x hx
  obtain ⟨y, _, rfl⟩ := List.mem_map.mp hx
  exact mul_self_nonneg y

theorem zip_self_map (v : List ℚ) :
    ((v.zip v).map fun p => p.1 * p.2) = v.map fun x => x * x := by
  induction v with
  | nil => rfl
  | cons x xs ih => simp [List.zip_cons_cons, ih]

theorem zip_neg_map (v : List ℚ) :
    ((v.zip (v.map fun x => -x)).map fun p => p.1 * p.2) =
      v.map fun x => -(x * x) := by
  induction v with
  | nil => rfl
  | cons x xs ih => simp [List.zip_cons_cons, ih, mul_neg]

theorem sum_map_neg_sq (v : List ℚ) :
    (v.map fun x => -(x * x)).sum = -((v.map fun x => x * x).sum) := by
  induction v with
  | nil => simp
  | cons x xs ih => simp [ih]; ring

theorem cosine_similarity_guard (a b : List ℚ)
    (h : a = [] ∨ b = [] ∨ a.length ≠ b.length) : cosine_similarity a b = 0 := by
  rw [cosine_similarity, if_pos h]

theorem cosine_similarity_zero_norm (a b : List ℚ)
    (h : (a.map fun x => x * x).sum = 0 ∨ (b.map fun x => x * x).sum = 0) :
    cosine_similarity a b = 0 := by
  rw [cosine_similarity]
  by_cases hg : a = [] ∨ b = [] ∨ a.length ≠ b.length
  · rw [if_pos hg]
  · rw [if_neg hg, if_pos ?_]
    rcases h with h | h
    · left; rw [h]; simp
    · right; rw [h]; simp

theorem cosine_similarity_self (v : List ℚ) (hv : v ≠ [])
    (hs : (v.map fun x => x * x).sum ≠ 0) : cosine_similarity v v = 1 := by
  have hpos : (0 : ℚ) < (v.map fun x => x * x).sum :=
    lt_of_le_of_ne (sumsq_nonneg v) (Ne.symm hs)
  have hcast : (0 : ℝ) < (((v.map fun x => x * x).sum : ℚ) : ℝ) := by
    exact_mod_cast hpos
  have hsqrt : Real.sqrt (((v.map fun x => x * x).sum : ℚ) : ℝ) ≠ 0 :=
    ne_of_gt (Real.sqrt_pos.mpr hcast)
  rw [cosine_similarity, if_neg (by simp [hv]), if_neg (not_or.mpr ⟨hsqrt, hsqrt⟩)]
  rw [zip_self_map, Real.mul_self_sqrt (le_of_lt hcast)]
  exact div_self (ne_of_gt hcast)

theorem cosine_similarity_neg_self (v : List ℚ) (hv : v ≠ [])
    (hs : (v.map fun x => x * x).sum ≠ 0) :
    cosine_similarity v (v.map fun x => -x) = -1 := by
  have hpos : (0 : ℚ) < (v.map fun x => x * x).sum :=
    lt_of_le_of_ne (sumsq_nonneg v) (Ne.symm hs)
  have hcast : (0 : ℝ) < (((v.map fun x => x * x).sum : ℚ) : ℝ) := by
    exact_mod_cast hpos
  have hsqrt : Real.sqrt (((v.map fun x => x * x).sum : ℚ) : ℝ) ≠ 0 :=
    ne_of_gt (Real.sqrt_pos.mpr hcast)
  have hsq : ((v.map fun x => -x).map fun x => x * x) = v.map fun x => x * x := by
    rw [List.map_map]
    refine List.map_congr_left fun x _ => ?_
    show (-x) * (-x) = x * x
    ring
  rw [cosine_similarity]
  rw [if_neg (by simp [hv])]
  rw [hsq, if_neg (not_or.mpr ⟨hsqrt, hsqrt⟩)]
  rw [zip_neg_map, sum_map_neg_sq, Real.mul_self_sqrt (le_of_lt hcast),
    Rat.cast_neg, neg_div, div_self (ne_of_gt hcast)]

/-- **C9** — `cosine_similarity` is total and never raises: it returns `0.0`
whenever either vector is empty, the lengths differ, or either vector has
zero norm (never divides by zero); and for every nonzero `v`,
`cos(v, v) = 1` and `cos(v, -v) = -1`. -/
theorem cosine_similarity_properties :
    (∀ a b : List ℚ, (a = [] ∨ b = [] ∨ a.length ≠ b.length) →
        cosine_similarity a b = 0) ∧
    (∀ a b : List ℚ,
        ((a.map fun x => x * x).sum = 0 ∨ (b.map fun x => x * x).sum = 0) →
        cosine_similarity a b = 0) ∧
    (∀ v : List ℚ, v ≠ [] → (v.map fun x => x * x).sum ≠ 0 →
        cosine_similarity v v = 1) ∧
    (∀ v : List ℚ, v ≠ [] → (v.map fun x => x * x).sum ≠ 0 →
        cosine_similarity v (v.map fun x => -x) = -1) :=
  ⟨cosine_similarity_guard, cosine_similarity_zero_norm,
   cosine_similarity_self, cosine_similarity_neg_self⟩

/-- Witness for C9 at concrete vectors: `[3,4]` against itself, its
negation, an empty vector, a length mismatch and a zero vector. -/
theorem cosine_similarity_properties_witness :
    cosine_similarity [3, 4] [3, 4] = 1 ∧
    cosine_similarity [3, 4] ([3, 4].map fun x => -x) = -1 ∧
    cosine_similarity [] [3, 4] = 0 ∧
    cosine_similarity [1, 2] [1, 2, 3] = 0 ∧
    cosine_similarity [0, 0] [5, 12] = 0 :=
  ⟨cosine_similarity_properties.2.2.1 [3, 4] (by decide) (by norm_num),
   cosine_similarity_properties.2.2.2 [3, 4] (by decide) (by norm_num),
   cosine_similarity_properties.1 [] [3, 4] (Or.inl rfl),
   cosine_similarity_properties.1 [1, 2] [1, 2, 3] (Or.inr (Or.inr (by decide))),
   cosine_similarity_properties.2.1 [0, 0] [5, 12] (Or.inl (by norm_num))⟩

theorem mem_insertDesc (m y : SimilarMatch) (l : List SimilarMatch) :
    y ∈ insertDesc m l ↔ y = m ∨ y ∈ l := by
  induction l with
  | nil => simp [insertDesc]
  | cons x xs ih =>
    rw [insertDesc]
    by_cases h : x.similarity ≤ m.similarity
    · rw [if_pos h]; simp
    · rw [if_neg h]
      simp only [List.mem_cons, ih]
      tauto

theorem mem_sortDesc (y : SimilarMatch) (l : List SimilarMatch) :
    y ∈ sortDesc l ↔ y ∈ l := by
  induction l with
  | nil => simp [sortDesc]
  | cons x xs ih =>
    rw [sortDesc, mem_insertDesc]
    simp [ih]

theorem sorted_insertDesc (m : SimilarMatch) (l : List SimilarMatch)
    (h : l.Pairwise fun a b => b.similarity ≤ a.similarity) :
    (insertDesc m l).Pairwise fun a b => b.similarity ≤ a.similarity := by
  induction l with
  | nil => simp [insertDesc]
  | cons x xs ih =>
    rw [insertDesc]
    obtain ⟨hx, hxs⟩ := List.pairwise_cons.mp h
    by_cases hc : x.similarity ≤ m.similarity
    · rw [if_pos hc]
      refine List.pairwise_cons.mpr ⟨?_, h⟩
      intro b hb
      rcases List.mem_cons.mp hb with rfl | hb
      · exact hc
      · exact le_trans (hx b hb) hc
    · rw [if_neg hc]
      refine List.pairwise_cons.mpr ⟨?_, ih hxs⟩
      intro b hb
      rcases (mem_insertDesc m b xs).mp hb with rfl | hb
      · exact le_of_not_le hc
      · exact hx b hb

theorem sorted_sortDesc (l : List SimilarMatch) :
    (sortDesc l).Pairwise fun a b => b.similarity ≤ a.similarity := by
  induction l with
  | nil => simp [sortDesc]
  | cons x xs ih => rw [sortDesc]; exact sorted_insertDesc x _ ih

theorem sortDesc_head_max (l : List SimilarMatch) (b : SimilarMatch)
    (rest : List SimilarMatch) (h : sortDesc l = b :: rest) :
    ∀ m ∈ l, m.similarity ≤ b.similarity := by
  intro m hm
  have hmem : m ∈ b :: rest := by rw [← h, mem_sortDesc]; exact hm
  rcases List.mem_cons.mp hmem with rfl | hmr
  · exact le_refl _
  · have hp := sorted_sortDesc l
    rw [h] at hp
    exact (List.pairwise_cons.mp hp).1 m hmr

theorem mem_buildMatches (e : List ℚ) (stored : List StoredChangeEvent)
    (m : SimilarMatch) :
    m ∈ buildMatches e stored ↔
      ∃ ce ∈ stored, ce.embedding ≠ [] ∧
        POSSIBLE_DUP_THRESHOLD ≤ cosine_similarity e ce.embedding ∧
        m = buildMatch e ce := by
  induction stored with
  | nil => simp [buildMatches]
  | cons ce rest ih =>
    rw [buildMatches]
    by_cases h1 : ce.embedding = []
    · rw [if_pos h1, ih]
      constructor
      · rintro ⟨c, hc, hne, hle, rfl⟩
        exact ⟨c, List.mem_cons_of_mem ce hc, hne, hle, rfl⟩
      · rintro ⟨c, hc, hne, hle, rfl⟩
        rcases List.mem_cons.mp hc with rfl | hc
        · exact absurd h1 hne
        · exact ⟨c, hc, hne, hle, rfl⟩
    · rw [if_neg h1]
      by_cases h2 : POSSIBLE_DUP_THRESHOLD ≤ cosine_similarity e ce.embedding
      · rw [if_pos h2]
        constructor
        · intro hm
          rcases List.mem_cons.mp hm with rfl | hm
          · exact ⟨ce, List.mem_cons_self ce rest, h1, h2, rfl⟩
          · obtain ⟨c, hc, hne, hle, rfl⟩ := ih.mp hm
            exact ⟨c, List.mem_cons_of_mem ce hc, hne, hle, rfl⟩
        · rintro ⟨c, hc, hne, hle, rfl⟩
          rcases List.mem_cons.mp hc with rfl | hc
          · exact List.mem_cons_self _ _
          · exact List.mem_cons_of_mem _ (ih.mpr ⟨c, hc, hne, hle, rfl⟩)
      · rw [if_neg h2, ih]
        constructor
        · rintro ⟨c, hc, hne, hle, rfl⟩
          exact ⟨c, List.mem_cons_of_mem ce hc, hne, hle, rfl⟩
        · rintro ⟨c, hc, hne, hle, rfl⟩
          rcases List.mem_cons.mp hc with rfl | hc
          · exact absurd hle h2
          · exact ⟨c, hc, hne, hle, rfl⟩

theorem buildMatches_nil_of_low (e : List ℚ) (stored : List StoredChangeEvent)
    (h : ∀ ce ∈ stored, ce.embedding ≠ [] →
      cosine_similarity e ce.embedding < POSSIBLE_DUP_THRESHOLD) :
    buildMatches e stored = [] := by
  induction stored with
  | nil => rfl
  | cons ce rest ih =>
    rw [buildMatches]
    by_cases h1 : ce.embedding = []
    · rw [if_pos h1]
      exact ih fun c hc => h c (List.mem_cons_of_mem ce hc)
    · rw [if_neg h1, if_neg (not_le.mpr (h ce (List.mem_cons_self ce rest) h1))]
      exact ih fun c hc => h c (List.mem_cons_of_mem ce hc)

theorem buildMatch_is_duplicate_iff (e : List ℚ) (ce : StoredChangeEvent) :
    (buildMatch e ce).is_duplicate = true ↔
      DUPLICATE_THRESHOLD ≤ cosine_similarity e ce.embedding := by
  simp [buildMatch]

theorem buildMatch_is_possible_iff (e : List ℚ) (ce : StoredChangeEvent) :
    (buildMatch e ce).is_possible_duplicate = true ↔
      (POSSIBLE_DUP_THRESHOLD ≤ cosine_similarity e ce.embedding ∧
        cosine_similarity e ce.embedding < DUPLICATE_THRESHOLD) := by
  simp [buildMatch]

/-- **C6** — the resolver decision is determined by the best-ranked match:
an unavailable candidate embedding (empty vector) yields `create` with
nothing written; when no stored comparison with a usable embedding reaches
`0.80` the decision is `create` with nothing written; otherwise the best
match `b` (head of the descending ranking, of maximal ranked similarity)
stems from a stored event with an embedding at similarity `≥ 0.80`, and
cosine `≥ 0.92` yields `merge` (one new ChangeEventSource link on the
existing event, no new ChangeEvent), while `0.80 ≤ cosine < 0.92` yields
`flag` with no mutation at all. -/
theorem resolver_decision_boundaries :
    (∀ stored iid db,
        check_and_handle_duplicates [] stored iid db = ({ action := "create" }, db)) ∧
    (∀ e stored iid db,
        (∀ ce ∈ stored, ce.embedding ≠ [] →
          cosine_similarity e ce.embedding < POSSIBLE_DUP_THRESHOLD) →
        check_and_handle_duplicates e stored iid db = ({ action := "create" }, db)) ∧
    (∀ e stored iid db b rest,
        find_similar_change_events e stored = b :: rest →
        (∃ ce ∈ stored, ce.embedding ≠ [] ∧
            POSSIBLE_DUP_THRESHOLD ≤ cosine_similarity e ce.embedding ∧
            b = buildMatch e ce) ∧
        (∀ m ∈ buildMatches e stored, m.similarity ≤ b.similarity) ∧
        (b.is_duplicate = true →
          check_and_handle_duplicates e stored iid db =
            ({ action := "merge", existing_id := some b.change_event_id,
               similarity := some b.similarity },
             { db with change_event_sources := db.change_event_sources ++
                [{ change_event_id := b.change_event_id, ingest_event_id := iid,
                   relevance_score := b.similarity }] })) ∧
        (b.is_duplicate = false → b.is_possible_duplicate = true →
          check_and_handle_duplicates e stored iid db =
            ({ action := "flag", existing_id := some b.change_event_id,
               similarity := some b.similarity }, db))) ∧
    (∀ e ce, ((buildMatch e ce).is_duplicate = true ↔
        DUPLICATE_THRESHOLD ≤ cosine_similarity e ce.embedding) ∧
      ((buildMatch e ce).is_possible_duplicate = true ↔
        (POSSIBLE_DUP_THRESHOLD ≤ cosine_similarity e ce.embedding ∧
          cosine_similarity e ce.embedding < DUPLICATE_THRESHOLD))) := by
  refine ⟨?_, ?_, ?_,
    fun e ce => ⟨buildMatch_is_duplicate_iff e ce, buildMatch_is_possible_iff e ce⟩⟩
  · intro stored iid db
    rfl
  · intro e stored iid db h
    rw [check_and_handle_duplicates, find_similar_change_events]
    by_cases he : e = []
    · rw [if_pos he]
    · rw [if_neg he, buildMatches_nil_of_low e stored h]
      rfl
  · intro e stored iid db b rest hfind
    have he : e ≠ [] := by
      intro he
      rw [find_similar_change_events, if_pos he] at hfind
      exact List.noConfusion hfind
    have hsort : sortDesc (buildMatches e stored) = b :: rest := by
      rw [find_similar_change_events, if_neg he] at hfind
      exact hfind
    have hb : b ∈ buildMatches e stored := by
      rw [← mem_sortDesc, hsort]
      exact List.mem_cons_self b rest
    refine ⟨(mem_buildMatches e stored b).mp hb,
      sortDesc_head_max _ b rest hsort, ?_, ?_⟩
    · intro hdup
      simp only [check_and_handle_duplicates, hfind, hdup, if_true]
    · intro hdup hposs
      simp only [check_and_handle_duplicates, hfind, hdup, hposs,
        Bool.false_eq_true, if_false, if_true]

theorem cos_eval_same : cosine_similarity [1, 0] [1, 0] = 1 :=
  cosine_similarity_self [1, 0] (by decide) (by norm_num)

theorem cos_eval_flag : cosine_similarity [1, 0] [4, 3] = 4 / 5 := by
  have h1 : (([1, 0] : List ℚ).map fun x => x * x).sum = 1 := by norm_num
  have h2 : (([4, 3] : List ℚ).map fun x => x * x).sum = 25 := by norm_num
  have hd : ((([1, 0] : List ℚ).zip [4, 3]).map fun p => p.1 * p.2).sum = 4 := by
    norm_num [List.zip_cons_cons]
  have hs1 : Real.sqrt (((1 : ℚ) : ℝ)) = ((1 : ℚ) : ℝ) := by
    push_cast
    exact Real.sqrt_one
  have hs2 : Real.sqrt (((25 : ℚ) : ℝ)) = ((5 : ℚ) : ℝ) := by
    push_cast
    rw [show (25 : ℝ) = 5 * 5 by norm_num]
    exact Real.sqrt_mul_self (by norm_num)
  rw [cosine_similarity, if_neg (by simp), h1, h2, hd, hs1, hs2,
    if_neg (by push_cast; norm_num)]
  push_cast
  norm_num

theorem cos_eval_low : cosine_similarity [1, 0] [0, 1] = 0 := by
  have hd : ((([1, 0] : List ℚ).zip [0, 1]).map fun p => p.1 * p.2).sum = 0 := by
    norm_num [List.zip_cons_cons]
  rw [cosine_similarity, if_neg (by simp), hd]
  simp

theorem buildMatches_singleton_pos (e : List ℚ) (ce : StoredChangeEvent)
    (h1 : ce.embedding ≠ [])
    (h2 : POSSIBLE_DUP_THRESHOLD ≤ cosine_similarity e ce.embedding) :
    buildMatches e [ce] = [buildMatch e ce] := by
  rw [buildMatches, if_neg h1, if_pos h2]
  rfl

theorem find_similar_eval_same :
    find_similar_change_events [1, 0] [wStoredSame] = [buildMatch [1, 0] wStoredSame] := by
  rw [find_similar_change_events, if_neg (by simp),
    buildMatches_singleton_pos [1, 0] wStoredSame (by decide)
      (by rw [show wStoredSame.embedding = [1, 0] from rfl, cos_eval_same]
          rw [POSSIBLE_DUP_THRESHOLD]
          norm_num)]
  rfl

theorem find_similar_eval_flag :
    find_similar_change_events [1, 0] [wStoredFlag] = [buildMatch [1, 0] wStoredFlag] := by
  rw [find_similar_change_events, if_neg (by simp),
    buildMatches_singleton_pos [1, 0] wStoredFlag (by decide)
      (by rw [show wStoredFlag.embedding = [4, 3] from rfl, cos_eval_flag]
          rw [POSSIBLE_DUP_THRESHOLD])]
  rfl

/-- Witness for C6: empty candidate embedding → `create`; a stored event at
cosine `0` → `create`; at cosine `1` → `merge` writing exactly one source
link and no change event; at cosine exactly `0.8` → `flag` mutating
nothing. -/
theorem resolver_decision_witness :
    check_and_handle_duplicates [] [wStoredSame] "ie-9" {} =
      ({ action := "create" }, ({} : DBState)) ∧
    check_and_handle_duplicates [1, 0] [wStoredLow] "ie-9" {} =
      ({ action := "create" }, ({} : DBState)) ∧
    (check_and_handle_duplicates [1, 0] [wStoredSame] "ie-9" {}).1.action = "merge" ∧
    (check_and_handle_duplicates [1, 0] [wStoredSame] "ie-9" {}).2.change_events = [] ∧
    (check_and_handle_duplicates [1, 0] [wStoredSame] "ie-9"
      {}).2.change_event_sources.length = 1 ∧
    (check_and_handle_duplicates [1, 0] [wStoredFlag] "ie-9" {}).1.action = "flag" ∧
    (check_and_handle_duplicates [1, 0] [wStoredFlag] "ie-9" {}).2 = ({} : DBState) := by
  have hcreate1 := resolver_decision_boundaries.1 [wStoredSame] "ie-9" {}
  have hcreate2 := resolver_decision_boundaries.2.1 [1, 0] [wStoredLow] "ie-9" {} ?low
  case low =>
    intro ce hce hne
    rw [List.mem_singleton] at hce
    subst hce
    rw [show wStoredLow.embedding = [0, 1] from rfl, cos_eval_low, POSSIBLE_DUP_THRESHOLD]
    norm_num
  have hdup : (buildMatch [1, 0] wStoredSame).is_duplicate = true :=
    (buildMatch_is_duplicate_iff [1, 0] wStoredSame).mpr
      (by rw [show wStoredSame.embedding = [1, 0] from rfl, cos_eval_same,
            DUPLICATE_THRESHOLD]
          norm_num)
  have hm := (resolver_decision_boundaries.2.2.1 [1, 0] [wStoredSame] "ie-9" {}
    (buildMatch [1, 0] wStoredSame) [] find_similar_eval_same).2.2.1 hdup
  have hnodup : (buildMatch [1, 0] wStoredFlag).is_duplicate = false := by
    rw [Bool.eq_false_iff]
    intro hcontra
    have := (buildMatch_is_duplicate_iff [1, 0] wStoredFlag).mp hcontra
    rw [show wStoredFlag.embedding = [4, 3] from rfl, cos_eval_flag,
      DUPLICATE_THRESHOLD] at this
    norm_num at this
  have hposs : (buildMatch [1, 0] wStoredFlag).is_possible_duplicate = true :=
    (buildMatch_is_possible_iff [1, 0] wStoredFlag).mpr
      (by rw [show wStoredFlag.embedding = [4, 3] from rfl, cos_eval_flag,
            DUPLICATE_THRESHOLD, POSSIBLE_DUP_THRESHOLD]
          norm_num)
  have hf := (resolver_decision_boundaries.2.2.1 [1, 0] [wStoredFlag] "ie-9" {}
    (buildMatch [1, 0] wStoredFlag) [] find_similar_eval_flag).2.2.2 hnodup hposs
  refine ⟨hcreate1, hcreate2, ?_, ?_, ?_, ?_, ?_⟩
  · rw [hm]
  · rw [hm]
  · rw [hm]; rfl
  · rw [hf]
  · rw [hf]

end SiteTrace
